import Mathlib

/-!
Verification of the task-dashboard core (`src/gantt_app.py`): the reconciler
`df_to_tasks`, the chart projector `make_gantt` together with the chart-side
filters, the date-validation gate of the add/save handlers, and the
JSON-file-backed store `load_tasks`/`save_tasks`.

Modelling conventions.
* A pandas dataframe produced by `tasks_to_df` / edited in `st.data_editor`
  is a `List Row`; its datetime cells always carry midnight timestamps (they
  are produced from ISO calendar-date strings or from `DateColumn` editors),
  so a cell is modelled as a calendar `Date`, and the `.date()` normalisation
  performed by the code is the identity on the model.  The nullable
  "Data zakończenia" column (`NaT` when unset) is an `Option Date`.
* `date.today()` read by `df_to_tasks` is an explicit `today : String`
  argument (the ISO string the code computes from it).
* Python `dict` construction `{t.id: t for t in prev_tasks}` keeps the last
  binding for a duplicated key; `lookupPrev` reproduces that.
* The JSON layer is modelled at the parsed-value level (`JValue`);
  `json.loads` that raises, an unreadable file, or a missing file are the
  `Except.error` input of `load_tasks`, and `json.dumps`/`json.loads` are
  taken to be mutually inverse between text and `JValue`.
-/

namespace Gantt

/-- A calendar date (no time component). -/
structure Date where
  year : Nat
  month : Nat
  day : Nat
deriving DecidableEq, Repr

/-- Zero-pad a numeral to two digits, as in ISO date rendering. -/
def pad2 (n : Nat) : String :=
  if n < 10 then "0" ++ toString n else toString n

/-- Zero-pad a numeral to four digits, as in ISO date rendering. -/
def pad4 (n : Nat) : String :=
  if n < 10 then "000" ++ toString n
  else if n < 100 then "00" ++ toString n
  else if n < 1000 then "0" ++ toString n
  else toString n

/-- `date.isoformat()`: render a date as `YYYY-MM-DD`. -/
def Date.toIso (d : Date) : String :=
  pad4 d.year ++ "-" ++ pad2 d.month ++ "-" ++ pad2 d.day

/-- Chronological strict comparison of calendar dates. -/
def Date.blt (x y : Date) : Bool :=
  x.year < y.year ||
    (x.year == y.year &&
      (x.month < y.month || (x.month == y.month && x.day < y.day)))

/-- Drop leading whitespace characters. -/
def dropLeadingWS : List Char → List Char
  | [] => []
  | c :: cs => if c.isWhitespace then dropLeadingWS cs else c :: cs

/-- Python `str.strip()`: remove leading and trailing whitespace. -/
def pyStrip (s : String) : String :=
  ⟨(dropLeadingWS (dropLeadingWS s.data).reverse).reverse⟩

/-- A task record, exactly the `Task` dataclass of the source: dates are
stored as ISO strings, `done_date = ""` means unset. -/
structure Task where
  id : String
  name : String
  start : String
  plan_end : String
  priority : String
  notes : String := ""
  done : Bool := false
  done_date : String := ""
deriving DecidableEq, Repr

/-- One dataframe row of the editor table: columns `id`, `Zadanie`, `Start`,
`Deadline`, `Priorytet`, `Notatki`, `Zakończone`, `Data zakończenia`. -/
structure Row where
  id : String
  name : String
  start : Date
  deadline : Date
  priority : String
  notes : String
  done : Bool
  done_date : Option Date
deriving DecidableEq, Repr

/-- `prev_by_id = {t.id: t for t in prev_tasks}` followed by
`prev_by_id.get(task_id)`: a Python dict comprehension keeps the last
binding of a duplicated id. -/
def lookupPrev (prev_tasks : List Task) (task_id : String) : Option Task :=
  prev_tasks.foldl (fun acc t => if t.id = task_id then some t else acc) none

/-- The body of the `for _, row in df.iterrows()` loop of `df_to_tasks`:
build one output task from one edited row, given the previous record looked
up by id (`prev`) and today's ISO date. -/
def reconcileRow (prev : Option Task) (today : String) (row : Row) : Task :=
  let prev_done : Bool := match prev with | some t => t.done | none => false
  let prev_done_date : String := match prev with | some t => t.done_date | none => ""
  let done_date_iso : String :=
    if row.done && !prev_done then
      today
    else if !row.done && prev_done then
      ""
    else
      match row.done_date with
      | none => match prev with | some _ => prev_done_date | none => ""
      | some d => d.toIso
  { id := row.id
    name := pyStrip row.name
    start := row.start.toIso
    plan_end := row.deadline.toIso
    priority := row.priority
    notes := pyStrip row.notes
    done := row.done
    done_date := done_date_iso }

/-- `df_to_tasks(df, prev_tasks)`: reconcile the edited table with the
previous task list.  `today` is the value of `date.today().isoformat()` at
the time of the call. -/
def df_to_tasks (df : List Row) (prev_tasks : List Task) (today : String) : List Task :=
  df.map (fun row => reconcileRow (lookupPrev prev_tasks row.id) today row)

/-- `validate_dates(start, plan_end)`. -/
def validate_dates (start plan_end : Date) : Option String :=
  if plan_end.blt start then some "Deadline nie może być wcześniejszy niż start." else none

/-- Outcome of a UI handler: `.error msg` means the message is shown and the
session task list and the store are left unchanged; `.ok ts` means the
session task list becomes `ts` and `save_tasks ts` is written. -/
abbrev HandlerResult := Except String (List Task)

/-- The add-form submit handler: reject an empty name, then reject
`deadline < start` via `validate_dates`, and otherwise append the new task
and persist. -/
def add_task (tasks : List Task) (name : String) (priority : String)
    (start deadline : Date) (notes : String) (new_id : String) : HandlerResult :=
  if pyStrip name = "" then
    .error "Podaj nazwę zadania."
  else
    match validate_dates start deadline with
    | some err => .error err
    | none =>
        .ok (tasks ++ [{ id := new_id, name := pyStrip name, start := start.toIso,
                         plan_end := deadline.toIso, priority := priority,
                         notes := pyStrip notes, done := false, done_date := "" }])

/-- The save-button handler after the edited rows have been merged back into
the full table `df_full`: reject when any row has `Deadline < Start`, and
otherwise reconcile and persist. -/
def save_changes (df_full : List Row) (tasks : List Task) (today : String) : HandlerResult :=
  if df_full.any (fun r => r.deadline.blt r.start) then
    .error "Masz co najmniej jedno zadanie, gdzie Deadline < Start. Popraw i zapisz ponownie."
  else
    .ok (df_to_tasks df_full tasks today)

/-! ### The chart pipeline (`make_gantt` and the chart-side filters) -/

/-- `PRIORITY_ORDER`. -/
def PRIORITY_ORDER : List String := ["Krytyczny", "Wysoki", "Średni", "Niski"]

/-- The `Sekcja` column. -/
def sectionLabel (done : Bool) : String :=
  if done then "✅ ZAKOŃCZONE" else "🟦 AKTYWNE"

/-- Sort code of `Sekcja_sort`, the ordered categorical on
`["🟦 AKTYWNE", "✅ ZAKOŃCZONE"]`: active = 0 before done = 1. -/
def sectionRank (done : Bool) : Nat := if done then 1 else 0

/-- Sort code of `Priorytet_sort`, the ordered categorical on
`PRIORITY_ORDER`.  A priority outside the enumeration becomes `NaN`, which
`sort_values` places last (`na_position="last"`); `findIdx` returns the
list's length for it, which sorts after every real code. -/
def prioRank (p : String) : Nat := PRIORITY_ORDER.findIdx (fun q => q == p)

/-- One rendered timeline bar: the dataframe row extended with the computed
columns `Koniec (wykres)`, `Sekcja` and `Y`. -/
structure Bar where
  row : Row
  koniec : Date
  sekcja : String
  y : String
deriving DecidableEq, Repr

/-- Compute the derived columns of one kept row: the display end is
`Data zakończenia` for done rows when set (`fillna` falls back to
`Deadline`), else `Deadline`; the section label and the y-axis key. -/
def barOf (r : Row) : Bar :=
  { row := r
    koniec :=
      if r.done then
        match r.done_date with
        | some d => d
        | none => r.deadline
      else r.deadline
    sekcja := sectionLabel r.done
    y := sectionLabel r.done ++ "  |  " ++ r.name }

/-- The lexicographic sort key of
`sort_values(["Sekcja_sort", "Priorytet_sort", "Start"])`: section code,
priority code, then the start date components. -/
def sortKeyL (b : Bar) : List Nat :=
  [sectionRank b.row.done, prioRank b.row.priority,
   b.row.start.year, b.row.start.month, b.row.start.day]

/-- Lexicographic comparison of equal-length numeric key lists. -/
def lexLe : List Nat → List Nat → Bool
  | [], _ => true
  | _ :: _, [] => false
  | a :: as, b :: bs =>
      if a < b then true else if b < a then false else lexLe as bs

/-- The sort relation used on bars. -/
def barLe (a b : Bar) : Prop :=
  lexLe (sortKeyL a) (sortKeyL b) = true

instance : DecidableRel barLe := fun a b => by
  unfold barLe; infer_instance

/-- `make_gantt(df, show_done)` as a render model: drop done rows unless
`show_done`, compute the derived columns, and sort by
`(Sekcja_sort, Priorytet_sort, Start)` — a multi-column
`DataFrame.sort_values`, which is a stable lexicographic sort.  An empty
input or empty filter result yields the empty bar sequence. -/
def make_gantt (df : List Row) (show_done : Bool) : List Bar :=
  let df1 := if show_done then df else df.filter (fun r => !r.done)
  (df1.map barOf).insertionSort barLe

/-- Tokenised regular-expression pattern: `.` is the any-character
metacharacter, every other character is a literal.  This models the pattern
fragment `re` receives from the name filter; patterns using other
metacharacters are outside the model. -/
def patToks (pat : String) : List (Option Char) :=
  pat.data.map (fun c => if c = '.' then none else some c)

/-- Match one pattern token against one character, case-insensitively
(`re.IGNORECASE`). -/
def tokMatch (t : Option Char) (c : Char) : Bool :=
  match t with
  | none => true
  | some p => p.toLower == c.toLower

/-- Match the whole token list against a prefix of the text. -/
def matchHere : List (Option Char) → List Char → Bool
  | [], _ => true
  | _ :: _, [] => false
  | t :: ts, c :: cs => tokMatch t c && matchHere ts cs

/-- `re.search`: try the match at every position of the text. -/
def searchFrom (toks : List (Option Char)) : List Char → Bool
  | [] => matchHere toks []
  | c :: cs => matchHere toks (c :: cs) || searchFrom toks cs

/-- `series.str.contains(pat, case=False, na=False)` applied to a name: a
case-insensitive regular-expression search of `pat` in `s` (pandas treats
the pattern as a regex by default). -/
def pdStrContains (s pat : String) : Bool :=
  searchFrom (patToks pat) s.data

/-- The chart-side filters applied before `make_gantt`: on a non-empty
table, keep the rows whose priority is in the multiselect, then, when the
text filter is non-blank, the rows whose name matches the stripped filter. -/
def chartFilter (df : List Row) (pri_plot : List String) (text_filter : String) : List Row :=
  if df.isEmpty then df
  else
    let df1 := df.filter (fun r => pri_plot.contains r.priority)
    if pyStrip text_filter ≠ "" then
      df1.filter (fun r => pdStrContains r.name (pyStrip text_filter))
    else df1

/-- The whole chart pipeline: chart-side filters, then `make_gantt`. -/
def chart_output (df : List Row) (show_done : Bool) (pri_plot : List String)
    (text_filter : String) : List Bar :=
  make_gantt (chartFilter df pri_plot text_filter) show_done

/-- Case-insensitive substring test (the relation named by the spec's
filtering sentence): the needle, read as literal characters, occurs
contiguously in the haystack. -/
def substrCI (needle hay : String) : Bool :=
  searchFrom (needle.data.map some) hay.data

/-- Claim-side keep predicate, taken from the claim's own words: priority
selected, and `showDone` or not done, and the name filter empty or a
case-insensitive substring of the name.  Declared only to be compared with
the code model. -/
def keep_spec (pri_plot : List String) (show_done : Bool) (text_filter : String)
    (r : Row) : Bool :=
  pri_plot.contains r.priority && (show_done || !r.done)
    && (text_filter == "" || substrCI text_filter r.name)

/-- The keep predicate the code actually implements: priority selected, and
`show_done` or not done, and the stripped name filter blank or matching the
name as a case-insensitive regular-expression search. -/
def keep_code (pri_plot : List String) (show_done : Bool) (text_filter : String)
    (r : Row) : Bool :=
  pri_plot.contains r.priority && (show_done || !r.done)
    && (pyStrip text_filter == "" || pdStrContains r.name (pyStrip text_filter))

/-! ### The file-backed store (`load_tasks` / `save_tasks`) -/

/-- A parsed JSON value, the result of `json.loads`. -/
inductive JValue where
  | null : JValue
  | bool (b : Bool) : JValue
  | num (n : Int) : JValue
  | str (s : String) : JValue
  | arr (xs : List JValue) : JValue
  | obj (kvs : List (String × JValue)) : JValue
deriving Repr

mutual

/-- Python `repr()` of a JSON-loaded value, as the value appears nested
inside a container (strings quoted; quote-escaping inside strings is outside
the model, which no claim exercises). -/
def pyRepr : JValue → String
  | .null => "None"
  | .bool true => "True"
  | .bool false => "False"
  | .num n => toString n
  | .str s => "\x27" ++ s ++ "\x27"
  | .arr xs => "[" ++ pyReprList xs ++ "]"
  | .obj kvs => "\x7b" ++ pyReprObj kvs ++ "\x7d"

/-- Comma-joined reprs of the elements of a list. -/
def pyReprList : List JValue → String
  | [] => ""
  | [x] => pyRepr x
  | x :: xs => pyRepr x ++ ", " ++ pyReprList xs

/-- Comma-joined `key: value` reprs of the entries of a dict. -/
def pyReprObj : List (String × JValue) → String
  | [] => ""
  | [(k, v)] => "\x27" ++ k ++ "\x27: " ++ pyRepr v
  | (k, v) :: kvs => "\x27" ++ k ++ "\x27: " ++ pyRepr v ++ ", " ++ pyReprObj kvs

end

/-- Python `str()`: a string renders as itself, everything else as its
`repr`. -/
def pyStr : JValue → String
  | .str s => s
  | v => pyRepr v

/-- Python truthiness `bool(v)` of a JSON-loaded value. -/
def pyBool : JValue → Bool
  | .null => false
  | .bool b => b
  | .num n => n != 0
  | .str s => s != ""
  | .arr xs => !xs.isEmpty
  | .obj kvs => !kvs.isEmpty

/-- Lookup in a parsed JSON object (`d[k]` / `d.get(k)`): a Python dict
built by the JSON parser keeps the last binding of a duplicated key. -/
def getKey (kvs : List (String × JValue)) (k : String) : Option JValue :=
  kvs.foldl (fun acc kv => if kv.1 = k then some kv.2 else acc) none

/-- The loop body of `load_tasks` for one record: `d["id"]`, `d["name"]`,
`d["start"]`, `d["plan_end"]`, `d["priority"]` raise `KeyError` when missing
(`none` here, aborting the whole load); `d.get` supplies defaults for
`notes`, `done`, `done_date`. -/
def taskOfDict (kvs : List (String × JValue)) : Option Task :=
  match getKey kvs "id", getKey kvs "name", getKey kvs "start",
        getKey kvs "plan_end", getKey kvs "priority" with
  | some i, some n, some s, some pe, some pr =>
      some { id := pyStr i, name := pyStr n, start := pyStr s,
             plan_end := pyStr pe, priority := pyStr pr,
             notes := pyStr ((getKey kvs "notes").getD (.str "")),
             done := pyBool ((getKey kvs "done").getD (.bool false)),
             done_date := pyStr ((getKey kvs "done_date").getD (.str "")) }
  | _, _, _, _, _ => none

/-- Decode every element of the parsed top-level array; subscripting a
non-dict element raises (`TypeError`), aborting the load. -/
def decodeList : List JValue → Option (List Task)
  | [] => some []
  | .obj kvs :: xs =>
      match taskOfDict kvs, decodeList xs with
      | some t, some ts => some (t :: ts)
      | _, _ => none
  | _ :: _ => none

/-- Convert a parsed JSON value into task records: the top value must be an
array (iterating any other value either raises directly or yields elements
whose subscripting raises), and every element must decode. -/
def decodeTasks : JValue → Option (List Task)
  | .arr xs => decodeList xs
  | _ => none

/-- `load_tasks()`: the input is the outcome of reading and parsing
`DATA_FILE` (`.error` when the file is missing, unreadable, or `json.loads`
raises).  The `try`/`except` of the source turns every conversion failure
into the empty list. -/
def load_tasks (parsed : Except Unit JValue) : List Task :=
  match parsed with
  | .error _ => []
  | .ok v =>
      match decodeTasks v with
      | some ts => ts
      | none => []

/-- The parse-and-convert step attempted inside the `try` of `load_tasks`,
exposed as a partial function: `none` exactly when the stored data fails to
parse or to convert into task records. -/
def decodeStored (parsed : Except Unit JValue) : Option (List Task) :=
  match parsed with
  | .error _ => none
  | .ok v => decodeTasks v

/-- `dataclasses.asdict` of a task: the eight fields in declaration order. -/
def asdict (t : Task) : List (String × JValue) :=
  [("id", .str t.id), ("name", .str t.name), ("start", .str t.start),
   ("plan_end", .str t.plan_end), ("priority", .str t.priority),
   ("notes", .str t.notes), ("done", .bool t.done), ("done_date", .str t.done_date)]

/-- `save_tasks(tasks)`: the JSON value that `json.dumps` serialises to
`DATA_FILE`. -/
def save_tasks (tasks : List Task) : JValue :=
  .arr (tasks.map (fun t => .obj (asdict t)))

/-! ### Concrete sample data, used to instantiate the general statements -/

/-- A not-yet-done row being checked off (no previous record). -/
def sampleDoneRow : Row :=
  { id := "1", name := "A", start := ⟨2024, 1, 1⟩, deadline := ⟨2024, 1, 5⟩,
    priority := "Wysoki", notes := "", done := true, done_date := none }

/-- An untouched not-done row. -/
def sampleOpenRow : Row :=
  { id := "2", name := "B", start := ⟨2024, 2, 1⟩, deadline := ⟨2024, 2, 5⟩,
    priority := "Niski", notes := "", done := false, done_date := none }

/-- Not-done row with priority Wysoki (High), start 2024-01-01. -/
def rowHigh : Row :=
  { id := "h", name := "H", start := ⟨2024, 1, 1⟩, deadline := ⟨2024, 1, 9⟩,
    priority := "Wysoki", notes := "", done := false, done_date := none }

/-- Not-done row with priority Niski (Low), start 2024-01-01. -/
def rowLow : Row :=
  { id := "l", name := "L", start := ⟨2024, 1, 1⟩, deadline := ⟨2024, 1, 9⟩,
    priority := "Niski", notes := "", done := false, done_date := none }

/-- Not-done row with priority Krytyczny (Critical), start 2024-01-01. -/
def rowCrit : Row :=
  { id := "c", name := "C", start := ⟨2024, 1, 1⟩, deadline := ⟨2024, 1, 9⟩,
    priority := "Krytyczny", notes := "", done := false, done_date := none }

/-- A not-done row named "abc". -/
def rowAbc : Row :=
  { id := "a1", name := "abc", start := ⟨2024, 1, 1⟩, deadline := ⟨2024, 1, 2⟩,
    priority := "Wysoki", notes := "", done := false, done_date := none }

/-- A not-done row named "Abc". -/
def rowAbcU : Row :=
  { id := "a2", name := "Abc", start := ⟨2024, 1, 1⟩, deadline := ⟨2024, 1, 2⟩,
    priority := "Wysoki", notes := "", done := false, done_date := none }

/-- A done row with an explicit completion date 2024-02-01 and deadline
2024-02-10, as in the spec's end-date scenario. -/
def rowDoneDated : Row :=
  { id := "d", name := "D", start := ⟨2024, 1, 1⟩, deadline := ⟨2024, 2, 10⟩,
    priority := "Wysoki", notes := "", done := true, done_date := some ⟨2024, 2, 1⟩ }

/-- The spec's validation-gate scenario: start 2024-03-10, deadline
2024-03-01. -/
def sampleBadRow : Row :=
  { id := "b", name := "Bad", start := ⟨2024, 3, 10⟩, deadline := ⟨2024, 3, 1⟩,
    priority := "Wysoki", notes := "", done := false, done_date := none }

/-! ### Order lemmas for the sort key -/

lemma lexLe_refl : ∀ x : List Nat, lexLe x x = true
  | [] => rfl
  | _ :: as => by simp [lexLe, lexLe_refl as]

lemma lexLe_total : ∀ x y : List Nat, lexLe x y = true ∨ lexLe y x = true
  | [], _ => Or.inl rfl
  | _ :: _, [] => Or.inr rfl
  | a :: as, b :: bs => by
      rcases Nat.lt_trichotomy a b with h | rfl | h
      · left; simp [lexLe, h]
      · simpa [lexLe] using lexLe_total as bs
      · right; simp [lexLe, h]

lemma lexLe_head_le {b c : Nat} {bs cs : List Nat}
    (h : lexLe (b :: bs) (c :: cs) = true) : b ≤ c := by
  by_cases h1 : b < c
  · exact Nat.le_of_lt h1
  · by_cases h2 : c < b
    · simp [lexLe, h1, h2] at h
    · exact Nat.le_of_not_lt h2

lemma lexLe_trans : ∀ x y z : List Nat,
    lexLe x y = true → lexLe y z = true → lexLe x z = true
  | [], _, _, _, _ => rfl
  | _ :: _, [], _, h1, _ => by simp [lexLe] at h1
  | _ :: _, _ :: _, [], _, h2 => by simp [lexLe] at h2
  | a :: as, b :: bs, c :: cs, h1, h2 => by
      rcases Nat.lt_trichotomy a b with hab | rfl | hab
      · have hbc := lexLe_head_le h2
        have hac : a < c := Nat.lt_of_lt_of_le hab hbc
        simp [lexLe, hac]
      · by_cases hac : a < c
        · simp [lexLe, hac]
        · by_cases hca : c < a
          · simp [lexLe, hac, hca] at h2
          · have h1' : lexLe as bs = true := by
              simpa [lexLe] using h1
            have h2' : lexLe bs cs = true := by
              simpa [lexLe, hac, hca] using h2
            simpa [lexLe, hac, hca] using lexLe_trans as bs cs h1' h2'
      · simp [lexLe, Nat.lt_asymm hab, hab] at h1

lemma barLe_total : ∀ a b : Bar, barLe a b ∨ barLe b a :=
  fun a b => lexLe_total (sortKeyL a) (sortKeyL b)

lemma barLe_trans : ∀ a b c : Bar, barLe a b → barLe b c → barLe a c :=
  fun _ _ _ h1 h2 => lexLe_trans _ _ _ h1 h2

/-! ### Claims about the reconciler -/

/-- C7: on any input, `df_to_tasks` outputs exactly one task per edited row,
in input order, and each output task's id is the row's id verbatim. -/
theorem C7_one_output_per_row (df : List Row) (prev : List Task) (today : String) :
    (df_to_tasks df prev today).length = df.length ∧
    (df_to_tasks df prev today).map Task.id = df.map Row.id := by
  constructor
  · simp [df_to_tasks]
  · unfold df_to_tasks
    rw [List.map_map]
    exact List.map_congr_left fun row _ => rfl

/-- C1: each output `done_date` is determined by the three-way rule in
order: a false→true transition of `done` stamps the current date; a
true→false transition clears to the empty string; otherwise the row's
explicit completion date, rendered as an ISO calendar date, when supplied,
and the previous record's `done_date` when not. -/
theorem C1_done_date_three_way_rule (df : List Row) (prev : List Task)
    (today : String) (i : Nat) (row : Row) (h : df[i]? = some row) :
    ((df_to_tasks df prev today)[i]?).map Task.done_date =
      some (
        let prevT := lookupPrev prev row.id
        let prev_done := (prevT.map Task.done).getD false
        let prev_dd := (prevT.map Task.done_date).getD ""
        if row.done = true ∧ prev_done = false then today
        else if row.done = false ∧ prev_done = true then ""
        else
          match row.done_date with
          | some d => d.toIso
          | none => prev_dd) := by
  simp only [df_to_tasks, List.getElem?_map, h, Option.map_some']
  cases hp : lookupPrev prev row.id with
  | none =>
      cases hd : row.done <;> cases hdd : row.done_date <;>
        simp [reconcileRow, hp, hd, hdd]
  | some t =>
      cases hd : row.done <;> cases htd : t.done <;> cases hdd : row.done_date <;>
        simp [reconcileRow, hp, hd, htd, hdd]

/-- C1 instance: checking off a fresh row on 2024-05-01 stamps that date. -/
theorem C1_witness :
    ([sampleDoneRow][0]? = some sampleDoneRow) ∧
    ((df_to_tasks [sampleDoneRow] [] "2024-05-01")[0]?).map Task.done_date =
      some "2024-05-01" := by
  refine ⟨rfl, ?_⟩
  rw [C1_done_date_three_way_rule [sampleDoneRow] [] "2024-05-01" 0 sampleDoneRow rfl]
  rfl

/-- C8: a row whose id has no match in the previous task list is reconciled
exactly as if its previous record existed with `done = false` and
`done_date = ""`; in particular such a row marked done is stamped with the
current date, and such a row not done with no explicit completion date gets
the empty `done_date`. -/
theorem C8_no_previous_match (df : List Row) (prev : List Task) (today : String)
    (i : Nat) (row : Row) (h : df[i]? = some row)
    (hnone : lookupPrev prev row.id = none) :
    ((df_to_tasks df prev today)[i]? = some (reconcileRow none today row)) ∧
    (∀ t : Task, t.done = false → t.done_date = "" →
      reconcileRow none today row = reconcileRow (some t) today row) ∧
    (row.done = true → (reconcileRow none today row).done_date = today) ∧
    (row.done = false → row.done_date = none →
      (reconcileRow none today row).done_date = "") := by
  refine ⟨?_, ?_, ?_, ?_⟩
  · simp [df_to_tasks, List.getElem?_map, h, hnone]
  · intro t ht htd
    cases hd : row.done <;> cases hdd : row.done_date <;>
      simp [reconcileRow, ht, htd, hd, hdd]
  · intro hd
    simp [reconcileRow, hd]
  · intro hd hdd
    simp [reconcileRow, hd, hdd]

/-- C8 instance: a fresh checked row stamps today. -/
theorem C8_witness :
    ([sampleDoneRow][0]? = some sampleDoneRow) ∧
    (lookupPrev [] sampleDoneRow.id = none) ∧
    ((df_to_tasks [sampleDoneRow] [] "2024-05-01")[0]? =
      some (reconcileRow none "2024-05-01" sampleDoneRow)) :=
  ⟨rfl, rfl,
    (C8_no_previous_match [sampleDoneRow] [] "2024-05-01" 0 sampleDoneRow rfl rfl).1⟩

/-- C2 counterexample: the output of `df_to_tasks` is not a function of the
two inputs alone — the same edited rows and previous tasks reconciled under
two different current dates produce different task lists, because the
false→true transition stamps `date.today()`. -/
theorem C2_counterexample :
    df_to_tasks [sampleDoneRow] [] "2024-05-01" ≠
      df_to_tasks [sampleDoneRow] [] "2024-05-02" := by
  decide

/-- C2 (amended): the reconciler has no side effects and its output depends
only on the edited rows, the previous tasks and the current date; whenever
no row undergoes a false→true `done` transition, the current date is not
used, so the output is a function of the two inputs alone. -/
theorem C2_pure_given_current_date (df : List Row) (prev : List Task)
    (t₁ t₂ : String)
    (h : ∀ row ∈ df, ¬(row.done = true ∧
        ((lookupPrev prev row.id).map Task.done).getD false = false)) :
    df_to_tasks df prev t₁ = df_to_tasks df prev t₂ := by
  unfold df_to_tasks
  refine List.map_congr_left ?_
  intro row hrow
  have hr := h row hrow
  cases hp : lookupPrev prev row.id with
  | none =>
      rw [hp] at hr
      cases hd : row.done
      · simp [reconcileRow, hp, hd]
      · exact absurd ⟨hd, rfl⟩ hr
  | some t =>
      rw [hp] at hr
      simp only [Option.map_some', Option.getD_some] at hr
      cases hd : row.done <;> cases htd : t.done
      · simp [reconcileRow, hd, htd]
      · simp [reconcileRow, hd, htd]
      · exact absurd ⟨hd, htd⟩ hr
      · simp [reconcileRow, hd, htd]

/-- C2 instance: a no-transition reconcile is independent of the date. -/
theorem C2_witness :
    (∀ row ∈ [sampleOpenRow], ¬(row.done = true ∧
        ((lookupPrev [] row.id).map Task.done).getD false = false)) ∧
    df_to_tasks [sampleOpenRow] [] "2024-05-01" =
      df_to_tasks [sampleOpenRow] [] "2024-05-02" :=
  ⟨by decide,
    C2_pure_given_current_date [sampleOpenRow] [] "2024-05-01" "2024-05-02"
      (by decide)⟩

/-! ### Claims about validation and the store -/

/-- C4: creating or saving a task whose deadline is earlier than its start
is rejected with an error; in the handler model an `.error` outcome leaves
the session task list and the store untouched, and `save_changes` reaches
`df_to_tasks` only in its `.ok` branch, so the reconciler is never invoked. -/
theorem C4_deadline_gate :
    (∀ (tasks : List Task) (name priority : String) (start deadline : Date)
        (notes new_id : String), deadline.blt start = true →
        ∃ msg, add_task tasks name priority start deadline notes new_id = .error msg) ∧
    (∀ (df_full : List Row) (tasks : List Task) (today : String),
        (∃ r ∈ df_full, r.deadline.blt r.start = true) →
        save_changes df_full tasks today =
          .error "Masz co najmniej jedno zadanie, gdzie Deadline < Start. Popraw i zapisz ponownie.") := by
  constructor
  · intro tasks name priority start deadline notes new_id hlt
    by_cases hn : pyStrip name = ""
    · exact ⟨"Podaj nazwę zadania.", by simp [add_task, hn]⟩
    · exact ⟨"Deadline nie może być wcześniejszy niż start.",
        by simp [add_task, hn, validate_dates, hlt]⟩
  · intro df_full tasks today hex
    have hany : df_full.any (fun r => r.deadline.blt r.start) = true := by
      rcases hex with ⟨r, hr, hlt⟩
      exact List.any_eq_true.mpr ⟨r, hr, hlt⟩
    simp [save_changes, hany]

/-- C4 instance: the spec's scenario `start=2024-03-10, plan_end=2024-03-01`
is rejected both at creation and at save. -/
theorem C4_witness :
    (Date.blt ⟨2024, 3, 1⟩ ⟨2024, 3, 10⟩ = true) ∧
    (∃ msg, add_task [] "X" "Wysoki" ⟨2024, 3, 10⟩ ⟨2024, 3, 1⟩ "" "id1" =
      .error msg) ∧
    (save_changes [sampleBadRow] [] "2024-05-01" =
      .error "Masz co najmniej jedno zadanie, gdzie Deadline < Start. Popraw i zapisz ponownie.") :=
  ⟨by decide,
   C4_deadline_gate.1 [] "X" "Wysoki" ⟨2024, 3, 10⟩ ⟨2024, 3, 1⟩ "" "id1" (by decide),
   C4_deadline_gate.2 [sampleBadRow] [] "2024-05-01"
     ⟨sampleBadRow, by decide, by decide⟩⟩

/-- C9: stored data that fails to parse or to convert into task records
makes `load_tasks` return the empty list instead of propagating a failure. -/
theorem C9_unparseable_load_empty (parsed : Except Unit JValue)
    (h : decodeStored parsed = none) : load_tasks parsed = [] := by
  cases parsed with
  | error e => rfl
  | ok v =>
      simp only [decodeStored] at h
      simp [load_tasks, h]

/-- C9 instance: a record missing its required fields loads as the empty
list. -/
theorem C9_witness :
    (decodeStored (.ok (.arr [.obj [("id", .str "1")]])) = none) ∧
    load_tasks (.ok (.arr [.obj [("id", .str "1")]])) = [] :=
  ⟨rfl, C9_unparseable_load_empty (.ok (.arr [.obj [("id", .str "1")]])) rfl⟩

lemma taskOfDict_asdict (t : Task) : taskOfDict (asdict t) = some t := rfl

/-- C10: saving any task list and loading it back returns the same list,
field for field. -/
theorem C10_save_load_roundtrip (tasks : List Task) :
    load_tasks (.ok (save_tasks tasks)) = tasks := by
  have h : ∀ ts : List Task,
      decodeList (ts.map (fun t => .obj (asdict t))) = some ts := by
    intro ts
    induction ts with
    | nil => rfl
    | cons t ts ih => simp [decodeList, taskOfDict_asdict, ih]
  simp [load_tasks, save_tasks, decodeTasks, h]

/-! ### Claims about the chart pipeline -/

/-- C6: every bar the chart pipeline keeps displays its end as the task's
completion date when the task is done and that date is set, and as the
deadline otherwise. -/
theorem C6_bar_end_selection (df : List Row) (sd : Bool) (pp : List String)
    (tf : String) (b : Bar) (hb : b ∈ chart_output df sd pp tf) :
    b.koniec = if b.row.done then b.row.done_date.getD b.row.deadline
               else b.row.deadline := by
  simp only [chart_output, make_gantt] at hb
  have hb' := (List.mem_insertionSort barLe).1 hb
  rcases List.mem_map.1 hb' with ⟨r, _, rfl⟩
  cases hd : r.done <;> cases hdd : r.done_date <;> simp [barOf, hd, hdd]

/-- C6 instance: a done task with completion 2024-02-01 and deadline
2024-02-10 displays end 2024-02-01. -/
theorem C6_witness :
    (barOf rowDoneDated ∈ chart_output [rowDoneDated] true PRIORITY_ORDER "") ∧
    (barOf rowDoneDated).koniec =
      (if (barOf rowDoneDated).row.done
        then (barOf rowDoneDated).row.done_date.getD (barOf rowDoneDated).row.deadline
        else (barOf rowDoneDated).row.deadline) ∧
    (barOf rowDoneDated).koniec = ⟨2024, 2, 1⟩ :=
  ⟨by decide,
   C6_bar_end_selection [rowDoneDated] true PRIORITY_ORDER "" (barOf rowDoneDated)
     (by decide),
   by decide⟩

lemma map_row_barOf (l : List Row) : (l.map barOf).map Bar.row = l := by
  rw [List.map_map]
  exact (List.map_congr_left fun r _ => rfl).trans (List.map_id l)

/-- The rows surviving the chart-side filters and the done filter of
`make_gantt` are exactly the rows satisfying `keep_code`. -/
lemma chart_kept_rows_eq (df : List Row) (sd : Bool) (pp : List String) (tf : String) :
    (if sd then chartFilter df pp tf
     else (chartFilter df pp tf).filter (fun r => !r.done)) =
      df.filter (keep_code pp sd tf) := by
  by_cases hdf : df.isEmpty
  · rw [List.isEmpty_iff.mp hdf]
    cases sd <;> simp [chartFilter]
  · by_cases htf : pyStrip tf = "" <;> cases sd <;>
      simp only [chartFilter, hdf, htf, ne_eq, not_true_eq_false,
        not_false_eq_true, Bool.false_eq_true, if_true, if_false, ite_true,
        ite_false, List.filter_filter] <;>
      refine List.filter_congr fun r _ => ?_ <;>
      by_cases hc : r.priority ∈ pp <;> cases hd : r.done <;>
        cases hm : pdStrContains r.name (pyStrip tf) <;>
        simp [keep_code, htf, hc, hd, hm]

/-- C3: the projector partitions its output into Active before Done and
orders each section by priority rank Critical > High > Medium > Low then
start ascending — the output is sorted under the lexicographic bar key, is a
permutation of the kept rows, and the sort is stable (bars with equal keys
keep their input order); the spec's scenario High/Low/Critical with equal
starts projects as Critical, High, Low. -/
theorem C3_section_priority_start_order (df : List Row) (sd : Bool) :
    List.Sorted barLe (make_gantt df sd) ∧
    List.Perm (make_gantt df sd)
      ((if sd then df else df.filter (fun r => !r.done)).map barOf) ∧
    (∀ k : List Nat,
      (make_gantt df sd).filter (fun b => sortKeyL b == k) =
        ((if sd then df else df.filter (fun r => !r.done)).map barOf).filter
          (fun b => sortKeyL b == k)) ∧
    (make_gantt [rowHigh, rowLow, rowCrit] true).map (fun b => b.row.priority) =
      ["Krytyczny", "Wysoki", "Niski"] := by
  haveI : IsTotal Bar barLe := ⟨barLe_total⟩
  haveI : IsTrans Bar barLe := ⟨barLe_trans⟩
  refine ⟨?_, ?_, ?_, by decide⟩
  · simpa [make_gantt] using
      List.sorted_insertionSort barLe
        ((if sd then df else df.filter (fun r => !r.done)).map barOf)
  · simpa [make_gantt] using
      List.perm_insertionSort barLe
        ((if sd then df else df.filter (fun r => !r.done)).map barOf)
  · intro k
    simp only [make_gantt]
    set l := (if sd then df else df.filter (fun r => !r.done)).map barOf with hl
    set p : Bar → Bool := fun b => sortKeyL b == k with hp
    have hpair : (l.filter p).Pairwise barLe := by
      apply List.pairwise_of_forall_mem_list
      intro a ha b hb
      have hak : sortKeyL a = k := by simpa [hp] using List.of_mem_filter ha
      have hbk : sortKeyL b = k := by simpa [hp] using List.of_mem_filter hb
      show lexLe (sortKeyL a) (sortKeyL b) = true
      rw [hak, hbk]
      exact lexLe_refl k
    have hsub : List.Sublist (l.filter p) (l.insertionSort barLe) :=
      List.sublist_insertionSort hpair (List.filter_sublist l)
    have hsub2 : List.Sublist ((l.filter p).filter p)
        ((l.insertionSort barLe).filter p) := hsub.filter p
    have hidem : (l.filter p).filter p = l.filter p := by
      rw [List.filter_filter]
      exact List.filter_congr fun a _ => by cases hpa : p a <;> simp [hpa]
    rw [hidem] at hsub2
    have hlen : (l.filter p).length = ((l.insertionSort barLe).filter p).length :=
      (((List.perm_insertionSort barLe l).filter p).length_eq).symm
    exact (hsub2.eq_of_length hlen).symm

/-- C5 counterexample: the kept set is not characterised by the claimed
case-insensitive substring test.  The filter "a.c" keeps the task named
"abc" although "a.c" is neither empty nor a case-insensitive substring of
"abc" (pandas `str.contains` reads the filter as a regular expression and
its dot matches any character), and the whitespace filter " " keeps the task
named "Abc" although " " is neither empty nor a substring of "Abc" (the
code strips the filter before testing). -/
theorem C5_counterexample :
    ((chart_output [rowAbc] true PRIORITY_ORDER "a.c").map Bar.row = [rowAbc] ∧
      keep_spec PRIORITY_ORDER true "a.c" rowAbc = false) ∧
    ((chart_output [rowAbcU] true PRIORITY_ORDER " ").map Bar.row = [rowAbcU] ∧
      keep_spec PRIORITY_ORDER true " " rowAbcU = false) := by
  decide

/-- C5 (amended): the pipeline keeps a task iff its priority is selected,
and `showDone` is true or the task is not done, and the name filter is blank
after stripping or the stripped filter matches the task's name as a
case-insensitive regular-expression search (which, for filters free of
regex metacharacters, is a case-insensitive substring test); in particular
with `showDone` false every done task is excluded. -/
theorem C5_keep_characterisation (df : List Row) (sd : Bool) (pp : List String)
    (tf : String) :
    List.Perm ((chart_output df sd pp tf).map Bar.row)
      (df.filter (keep_code pp sd tf)) ∧
    (sd = false → ∀ b ∈ chart_output df sd pp tf, b.row.done = false) := by
  constructor
  · have h1 : List.Perm ((chart_output df sd pp tf).map Bar.row)
        (((if sd then chartFilter df pp tf
           else (chartFilter df pp tf).filter (fun r => !r.done)).map barOf).map
          Bar.row) := by
      simp only [chart_output, make_gantt]
      cases sd <;>
        exact (List.perm_insertionSort barLe _).map Bar.row
    rw [map_row_barOf, chart_kept_rows_eq] at h1
    exact h1
  · intro hsd b hb
    subst hsd
    simp only [chart_output, make_gantt, Bool.false_eq_true, if_false] at hb
    have hb' := (List.mem_insertionSort barLe).1 hb
    rcases List.mem_map.1 hb' with ⟨r, hr, rfl⟩
    simpa [barOf] using List.of_mem_filter hr

/-- C5 instance: with `showDone` false over a mixed list, the kept rows are
exactly those `keep_code` selects, and no done task survives. -/
theorem C5_witness :
    List.Perm ((chart_output [rowDoneDated, rowAbc] false PRIORITY_ORDER "").map
        Bar.row)
      ([rowDoneDated, rowAbc].filter (keep_code PRIORITY_ORDER false "")) ∧
    (∀ b ∈ chart_output [rowDoneDated, rowAbc] false PRIORITY_ORDER "",
      b.row.done = false) :=
  ⟨(C5_keep_characterisation [rowDoneDated, rowAbc] false PRIORITY_ORDER "").1,
   fun b hb =>
     (C5_keep_characterisation [rowDoneDated, rowAbc] false PRIORITY_ORDER "").2
       rfl b hb⟩

end Gantt
